import Mathlib

/-
Verification of the food-facilities query service (src/main.py) against its
natural-language specification.

The embedding below translates the module-level dataset preparation and the
three FastAPI handlers into pure Lean definitions:

  * a pandas DataFrame becomes a `List Row` (source order = list order);
  * the module globals `df` / `df_with_coordinates` become functions of the
    loaded row list;
  * each handler becomes a function returning `Except String (List Row)`,
    where `Except.error msg` models `raise HTTPException(404, detail=msg)`
    and `Except.ok records` models the 200 response body;
  * Python floats are modelled by exact numbers: CSV coordinate cells are
    rationals, and the trigonometric distance computation lives in `ℝ`;
  * `pandas.Series.str.contains(pat)` keeps its default `regex=True`
    semantics: the pattern is handed to `re.search`.  We model the fragment
    of Python regular expressions whose patterns consist of literal
    characters and the metacharacter `.` (any character); the handlers'
    behaviour on patterns containing other metacharacters is outside the
    model and every theorem that depends on the matcher is guarded
    accordingly.
-/

/-- Tokens of the modelled regular-expression fragment: a literal character
or the metacharacter `.` (matches any single character). -/
inductive Tok where
| lit (c : Char)
| dot
deriving DecidableEq

/-- Whether a single pattern token matches a single character. -/
def tokMatches : Tok → Char → Bool
| Tok.lit c, d => c == d
| Tok.dot, _ => true

/-- Whether the token list matches a prefix of the character list, each token
consuming exactly one character (no token of the fragment is variable
length). -/
def matchAt : List Tok → List Char → Bool
| [], _ => true
| _ :: _, [] => false
| t :: ts, c :: cs => tokMatches t c && matchAt ts cs

/-- Python `re.search` on the fragment: scan left to right and succeed at the
first position where the whole pattern matches. -/
def reSearch (ts : List Tok) : List Char → Bool
| [] => matchAt ts []
| c :: cs => matchAt ts (c :: cs) || reSearch ts cs

/-- Compile a pattern string into fragment tokens: `.` becomes the any-char
token, every other character a literal.  Patterns containing other Python
regex metacharacters are outside the modelled fragment. -/
def toks (pat : String) : List Tok :=
  pat.data.map (fun c => if c == '.' then Tok.dot else Tok.lit c)

/-- Model of `pandas.Series.str.contains(pat, regex=True)` applied to the
string `s`, i.e. `re.search(pat, s) is not None`, on the modelled
fragment. -/
def pyContains (s pat : String) : Bool := reSearch (toks pat) s.data

/-- Model of Python `str.lower()` (ASCII case folding), used instead of
`String.toLower` so that concrete instances reduce inside the kernel. -/
def strLower (s : String) : String := String.mk (s.data.map Char.toLower)

/-- Python regex metacharacters.  A pattern all of whose characters avoid
these is matched by `re.search` exactly as a literal substring. -/
def isRegexMeta (c : Char) : Bool :=
  c == '.' || c == '^' || c == '$' || c == '*' || c == '+' || c == '?' ||
  c == '\x7b' || c == '\x7d' || c == '[' || c == ']' || c == '(' ||
  c == ')' || c == '\\' || c == '|'

/-- A pattern that contains no Python regex metacharacter at all. -/
def literalPattern (s : String) : Bool := s.data.all (fun c => !isRegexMeta c)

/-- Prefix test on character lists (helper for the spec-side substring
predicate). -/
def startsWithChars : List Char → List Char → Bool
| [], _ => true
| _ :: _, [] => false
| p :: ps, c :: cs => p == c && startsWithChars ps cs

/-- Substring occurrence test on character lists: `pat` occurs contiguously
somewhere in the list. -/
def containsSub (pat : List Char) : List Char → Bool
| [] => startsWithChars pat []
| c :: cs => startsWithChars pat (c :: cs) || containsSub pat cs

/-- Spec-side definition, following the specification's words: the text `s`
"contains `pat` as a substring anywhere".  Used only to compare the code's
regex-based matching against the spec's description. -/
def specContainsSub (s pat : String) : Bool := containsSub pat.data s.data

/-- One normalized facility-permit record (section 3 of the spec; columns of
`Mobile_Food_Facility_Permit.csv` that the handlers query on).  Coordinates
are `Option ℚ`: `none` models a pandas `NaN` ("no value"). -/
structure Row where
  Applicant : String
  Status : String
  Address : String
  Latitude : Option ℚ
  Longitude : Option ℚ
deriving DecidableEq

/-- A raw cell as produced by `pd.read_csv` before the module-level
normalization: a string, a number, or a null (`NaN`). -/
inductive RawCell where
| str (s : String)
| num (q : ℚ)
| null
deriving DecidableEq

/-- A raw source row (the five queried columns) before normalization. -/
structure RawRow where
  Applicant : RawCell
  Status : RawCell
  Address : RawCell
  Latitude : RawCell
  Longitude : RawCell

/-- Model of `df[col].fillna("")` on a single cell. -/
def fillna_empty : RawCell → RawCell
| RawCell.null => RawCell.str ""
| c => c

/-- Model of `.astype(str)` on a single cell (a null cell would render as
"nan", which is why the source applies `fillna` first). -/
def astype_str : RawCell → String
| RawCell.str s => s
| RawCell.num q => toString q
| RawCell.null => "nan"

/-- Model of `df[col] = df[col].fillna("").astype(str)` on one cell
(src/main.py lines 12-14). -/
def normText (c : RawCell) : String := astype_str (fillna_empty c)

/-- Numeric value of a digit string (most significant first). -/
def digitsVal (l : List Char) : ℕ :=
  l.foldl (fun n c => 10 * n + (c.toNat - 48)) 0

/-- Split a character list at the first `.`, returning the part before it
and, when a dot is present, the part after it. -/
def splitDot : List Char → List Char × Option (List Char)
| [] => ([], none)
| c :: cs =>
  if c == '.' then ([], some cs)
  else
    let r := splitDot cs
    (c :: r.1, r.2)

/-- Parse an unsigned decimal numeral (digits, optionally with one decimal
point; at least one digit overall).  This is the fragment of the numeric
grammar accepted by `pd.to_numeric` that the dataset uses. -/
def parseUnsigned (l : List Char) : Option ℚ :=
  match splitDot l with
  | (ip, none) =>
    if !ip.isEmpty && ip.all Char.isDigit then some (digitsVal ip) else none
  | (ip, some fp) =>
    if (!ip.isEmpty || !fp.isEmpty) && ip.all Char.isDigit && fp.all Char.isDigit then
      some ((digitsVal ip : ℚ) + (digitsVal fp : ℚ) / 10 ^ fp.length)
    else none

/-- Parse an optionally signed decimal numeral. -/
def parseSigned : List Char → Option ℚ
| '-' :: rest => (parseUnsigned rest).map Neg.neg
| '+' :: rest => parseUnsigned rest
| l => parseUnsigned l

/-- String-level entry point of the decimal parser. -/
def parseDecimal? (s : String) : Option ℚ := parseSigned s.data

/-- Model of `pd.to_numeric(_, errors="coerce")` on a single cell
(src/main.py lines 17-19): numbers pass through exactly, nulls and
unparseable strings become "no value" (`none`). -/
def to_numeric : RawCell → Option ℚ
| RawCell.num q => some q
| RawCell.null => none
| RawCell.str s => parseDecimal? s

/-- The module-level loader applied to one raw row: text columns are
null-filled and coerced to text, coordinate columns are numerically
coerced. -/
def loadRow (r : RawRow) : Row :=
  ⟨normText r.Applicant, normText r.Status, normText r.Address,
    to_numeric r.Latitude, to_numeric r.Longitude⟩

/-- The loader over the whole table: `AllRows` of the spec. -/
def load (rs : List RawRow) : List Row := rs.map loadRow

/-- Model of src/main.py lines 22-23: drop rows with a missing coordinate
(`dropna(subset=["Latitude", "Longitude"])`), then keep rows whose
coordinates are both different from 0.0.  This is `CoordRows` of the
spec. -/
def df_with_coordinates (df : List Row) : List Row :=
  (df.filter (fun r => r.Latitude.isSome && r.Longitude.isSome)).filter
    (fun r => decide (r.Latitude ≠ some 0) && decide (r.Longitude ≠ some 0))

/-- Rows whose lower-cased `Applicant` matches the lower-cased query, as in
`df[df["Applicant"].str.lower().str.contains(name_lowercase, na=False)]`
(src/main.py line 56). -/
def applicantMatches (df : List Row) (name : String) : List Row :=
  df.filter (fun r => pyContains (strLower r.Applicant) (strLower name))

/-- Model of the optional status filter of `search_by_applicant`
(src/main.py lines 58-60).  Python's `if status:` skips the filter both when
`status` is `None` and when it is the empty string. -/
def statusFilter (status : Option String) (rows : List Row) : List Row :=
  match status with
  | none => rows
  | some s =>
    if s = "" then rows
    else rows.filter (fun r => strLower r.Status == strLower s)

/-- The record list computed by `search_by_applicant` before the 404
check. -/
def applicantRecords (df : List Row) (name : String) (status : Option String) :
    List Row :=
  statusFilter status (applicantMatches df name)

/-- The `/search/applicant` handler (src/main.py lines 44-66). -/
def search_by_applicant (df : List Row) (name : String)
    (status : Option String) : Except String (List Row) :=
  if (applicantRecords df name status).isEmpty then
    Except.error "No matching applicant(s) found"
  else Except.ok (applicantRecords df name status)

/-- Rows whose lower-cased `Address` matches the lower-cased query
(src/main.py line 76). -/
def streetMatches (df : List Row) (street : String) : List Row :=
  df.filter (fun r => pyContains (strLower r.Address) (strLower street))

/-- The `/search/street` handler (src/main.py lines 68-83). -/
def search_by_street (df : List Row) (street : String) :
    Except String (List Row) :=
  if (streetMatches df street).isEmpty then
    Except.error "No matching addresses found"
  else Except.ok (streetMatches df street)

/-- Model of `math.radians`: degrees to radians. -/
noncomputable def radians (x : ℝ) : ℝ := x * Real.pi / 180

/-- Model of `haversine` (src/main.py lines 25-41): great-circle distance in
miles between two points given in decimal degrees, Earth radius 3956
miles.  Python float arithmetic is modelled by exact real arithmetic. -/
noncomputable def haversine (lat1 lon1 lat2 lon2 : ℝ) : ℝ :=
  let lon1 := radians lon1
  let lat1 := radians lat1
  let lon2 := radians lon2
  let lat2 := radians lat2
  let R : ℝ := 3956
  let long_dist := lon2 - lon1
  let lat_dist := lat2 - lat1
  let a := Real.sin (lat_dist / 2) ^ 2 +
    Real.cos lat1 * Real.cos lat2 * Real.sin (long_dist / 2) ^ 2
  let c := 2 * Real.arcsin (Real.sqrt a)
  c * R

/-- Coordinate cell as a real number.  Rows reaching the distance
computation always have `some` coordinates, so the default is never
exercised by the handler. -/
noncomputable def coordVal (o : Option ℚ) : ℝ := ((o.getD 0 : ℚ) : ℝ)

/-- Distance attached to a row by the nearest handler:
`haversine(latitude, longitude, row["Latitude"], row["Longitude"])`
(src/main.py lines 105-108). -/
noncomputable def rowDist (lat lon : ℝ) (r : Row) : ℝ :=
  haversine lat lon (coordVal r.Latitude) (coordVal r.Longitude)

/-- Boolean comparison of two real numbers (the comparator handed to the
sort). -/
noncomputable def distLE (x y : ℝ) : Bool :=
  @decide (x ≤ y) (Classical.propDecidable _)

/-- Model of the status pre-filter of the nearest handler (src/main.py
lines 101-103): keep only rows whose lower-cased status is exactly
"approved", unless `all_statuses` is set. -/
def approvedFilter (all_statuses : Bool) (rows : List Row) : List Row :=
  if all_statuses then rows
  else rows.filter (fun r => strLower r.Status == "approved")

/-- The nearest pipeline up to and including the sort: attach a distance to
every candidate row and sort by it (`results.sort_values(by="distance")`,
src/main.py line 110).  The source's `sort_values` leaves `kind` at its
pandas default `quicksort`; the model uses a stable merge sort, which
agrees with the source on sortedness but not necessarily on the relative
order of rows with equal distance. -/
noncomputable def nearestSorted (dfc : List Row) (lat lon : ℝ)
    (all_statuses : Bool) : List (Row × ℝ) :=
  ((approvedFilter all_statuses dfc).map (fun r => (r, rowDist lat lon r))).mergeSort
    (fun a b => distLE a.2 b.2)

/-- The record list computed by the nearest handler before the 404 check:
take the first 5 of the sorted rows and drop the transient distance
(`.head(5)` then `.drop(columns=["distance"])`, src/main.py lines
110-114).  `dfc` is the module-level `df_with_coordinates` view. -/
noncomputable def nearestRecords (dfc : List Row) (lat lon : ℝ)
    (all_statuses : Bool) : List Row :=
  ((nearestSorted dfc lat lon all_statuses).take 5).map Prod.fst

/-- The `/search/nearest` handler (src/main.py lines 85-119). -/
noncomputable def get_nearest_food_trucks (dfc : List Row) (lat lon : ℝ)
    (all_statuses : Bool) : Except String (List Row) :=
  if (nearestRecords dfc lat lon all_statuses).isEmpty then
    Except.error "No food trucks found with valid coordinates"
  else Except.ok (nearestRecords dfc lat lon all_statuses)

/-- The process-wide state established by the module-level loader: the two
views `AllRows` (`df`) and `CoordRows` (`df_with_coordinates`).  Python's
mutable module globals are modelled by explicit state passing; the nearest
handler's in-place work happens on `results = df_with_coordinates.copy()`,
which value semantics renders as ordinary expressions over the state. -/
structure ServerState where
  allRows : List Row
  coordRows : List Row

/-- The state at startup, after the loader ran over the parsed CSV. -/
def initState (df : List Row) : ServerState := ⟨df, df_with_coordinates df⟩

/-- The applicant handler as a state transformer: response paired with the
state after the request. -/
def applicantHandler (st : ServerState) (name : String)
    (status : Option String) : Except String (List Row) × ServerState :=
  (search_by_applicant st.allRows name status, st)

/-- The street handler as a state transformer. -/
def streetHandler (st : ServerState) (street : String) :
    Except String (List Row) × ServerState :=
  (search_by_street st.allRows street, st)

/-- The nearest handler as a state transformer. -/
noncomputable def nearestHandler (st : ServerState) (lat lon : ℝ)
    (all_statuses : Bool) : Except String (List Row) × ServerState :=
  (get_nearest_food_trucks st.coordRows lat lon all_statuses, st)

/-- A valid approved row with non-degenerate coordinates, used to
instantiate the theorems below on concrete data. -/
def r0 : Row := ⟨"Tasty Truck", "APPROVED", "123 SANSOME ST", some 1, some 1⟩

/-- A one-row dataset around `r0`. -/
def df1 : List Row := [r0]

/-- A row whose `Applicant` is the two-character string "ab". -/
def rowAB : Row := ⟨"ab", "APPROVED", "cd", none, none⟩

/-- A one-row dataset around `rowAB`. -/
def df2 : List Row := [rowAB]

/-- A row matched by the applicant query "taco". -/
def rowCE : Row := ⟨"Taco Cart", "APPROVED", "1 Market St", none, none⟩

/-- Tie-heavy dataset row: `n` determines the applicant name, all rows share
the same valid coordinates, so all distances from any query point are
equal. -/
def mkTieRow (n : ℕ) : Row :=
  ⟨String.mk (List.replicate n 'a'), "APPROVED", "x", some 1, some 2⟩

/-- Twenty-one approved rows at identical coordinates: enough equal sort
keys that pandas' default (non-stable) quicksort is outside its stable
insertion-sort regime. -/
def dfTie : List Row := (List.range 21).map mkTieRow

/-- On a pattern free of regex metacharacters, matching the compiled tokens
at the front of a string is the plain prefix test. -/
theorem matchAt_lit_toks (pat : List Char) :
    ∀ s : List Char, (∀ c ∈ pat, isRegexMeta c = false) →
      matchAt (pat.map (fun c => if c == '.' then Tok.dot else Tok.lit c)) s =
        startsWithChars pat s := by
  induction pat with
  | nil => intro s h; cases s <;> rfl
  | cons p ps ih =>
    intro s h
    have hp : (p == '.') = false := by
      by_cases hpd : p = '.'
      · subst hpd
        exact absurd (h '.' (List.mem_cons_self _ _)) (by decide)
      · simp [hpd]
    cases s with
    | nil => simp [matchAt, startsWithChars]
    | cons c cs =>
      have hmap : (p :: ps).map (fun c => if c == '.' then Tok.dot else Tok.lit c)
          = Tok.lit p :: ps.map (fun c => if c == '.' then Tok.dot else Tok.lit c) := by
        rw [List.map_cons, hp]
        rfl
      rw [hmap]
      simp only [matchAt, tokMatches, startsWithChars]
      rw [ih cs (fun c hc => h c (List.mem_cons_of_mem _ hc))]

/-- On a pattern free of regex metacharacters, `re.search` is exactly
substring occurrence. -/
theorem reSearch_lit_toks :
    ∀ (s pat : List Char), (∀ c ∈ pat, isRegexMeta c = false) →
      reSearch (pat.map (fun c => if c == '.' then Tok.dot else Tok.lit c)) s =
        containsSub pat s := by
  intro s
  induction s with
  | nil => intro pat h; exact matchAt_lit_toks pat [] h
  | cons c cs ih =>
    intro pat h
    simp only [reSearch, containsSub]
    rw [matchAt_lit_toks pat (c :: cs) h, ih pat h]

/-- The code's matcher coincides with the spec's substring containment on
every pattern with no regex metacharacter. -/
theorem pyContains_eq_specContainsSub (s pat : String)
    (h : literalPattern pat = true) : pyContains s pat = specContainsSub s pat := by
  have hall : ∀ c ∈ pat.data, isRegexMeta c = false := by
    intro c hc
    have hx := (List.all_eq_true.mp h) c hc
    simpa using hx
  exact reSearch_lit_toks s.data pat.data hall

/-- The status pre-filter of the nearest handler only ever removes rows. -/
theorem approvedFilter_sublist (all_statuses : Bool) (rows : List Row) :
    (approvedFilter all_statuses rows).Sublist rows := by
  unfold approvedFilter
  split
  · exact List.Sublist.refl _
  · exact List.filter_sublist _

/-- Rows surviving to the nearest handler's output come from the status-
and coordinate-filtered candidate set. -/
theorem nearest_mem (dfc : List Row) (lat lon : ℝ) (all_statuses : Bool)
    (r : Row) (h : r ∈ nearestRecords dfc lat lon all_statuses) :
    r ∈ approvedFilter all_statuses dfc := by
  unfold nearestRecords at h
  rw [List.map_take] at h
  have h1 : r ∈ (nearestSorted dfc lat lon all_statuses).map Prod.fst :=
    (List.take_sublist _ _).subset h
  obtain ⟨p, hp, rfl⟩ := List.mem_map.mp h1
  unfold nearestSorted at hp
  have h2 := (List.mergeSort_perm _ _).mem_iff.mp hp
  obtain ⟨r2, hr2, he⟩ := List.mem_map.mp h2
  rw [← he]
  exact hr2

/-- The sort comparator is transitive. -/
theorem pairLE_trans (a b c : Row × ℝ) (hab : distLE a.2 b.2 = true)
    (hbc : distLE b.2 c.2 = true) : distLE a.2 c.2 = true := by
  simp only [distLE, decide_eq_true_eq] at hab hbc ⊢
  exact le_trans hab hbc

/-- The sort comparator is total. -/
theorem pairLE_total (a b : Row × ℝ) :
    (distLE a.2 b.2 || distLE b.2 a.2) = true := by
  simp only [distLE, Bool.or_eq_true, decide_eq_true_eq]
  exact le_total _ _

/-- The sorted pipeline stage is sorted by the attached distance. -/
theorem nearestSorted_pairwise (dfc : List Row) (lat lon : ℝ)
    (all_statuses : Bool) :
    (nearestSorted dfc lat lon all_statuses).Pairwise
      (fun a b => distLE a.2 b.2 = true) := by
  unfold nearestSorted
  exact List.sorted_mergeSort pairLE_trans pairLE_total _

/-- Every pair in the sorted pipeline stage carries the distance of its own
row. -/
theorem nearestSorted_mem_snd (dfc : List Row) (lat lon : ℝ)
    (all_statuses : Bool) :
    ∀ p ∈ nearestSorted dfc lat lon all_statuses,
      p.2 = rowDist lat lon p.1 := by
  intro p hp
  unfold nearestSorted at hp
  have h2 := (List.mergeSort_perm _ _).mem_iff.mp hp
  obtain ⟨r, _, he⟩ := List.mem_map.mp h2
  rw [← he]

/-- Forgetting the attached distances of the sorted stage gives back a
permutation of the candidate set. -/
theorem nearestSorted_fst_perm (dfc : List Row) (lat lon : ℝ)
    (all_statuses : Bool) :
    ((nearestSorted dfc lat lon all_statuses).map Prod.fst).Perm
      (approvedFilter all_statuses dfc) := by
  unfold nearestSorted
  have h1 := (List.mergeSort_perm
    ((approvedFilter all_statuses dfc).map (fun r => (r, rowDist lat lon r)))
    (fun a b => distLE a.2 b.2)).map Prod.fst
  rw [List.map_map,
    show (Prod.fst ∘ fun r : Row => (r, rowDist lat lon r)) = id from rfl,
    List.map_id] at h1
  exact h1

/-- The 404 wrapper shared by the three handlers: the error is returned
exactly on the empty record list, and a non-empty record list is returned
whole. -/
theorem if404 (l : List Row) (msg : String) :
    ((if l.isEmpty then Except.error msg else Except.ok l) =
      (Except.error msg : Except String (List Row)) ↔ l = []) ∧
    (l ≠ [] →
      (if l.isEmpty then Except.error msg else Except.ok l) = Except.ok l) := by
  cases l <;> simp

/-- Evaluation of the nearest pipeline on the one-row dataset `df1`. -/
theorem nearest_df1 : nearestRecords (df_with_coordinates df1) 0 0 false = [r0] := by
  have h1 : df_with_coordinates df1 = [r0] := by decide
  have h2 : approvedFilter false [r0] = [r0] := by decide
  unfold nearestRecords nearestSorted
  rw [h1, h2]
  simp [List.mergeSort_singleton]

/-- Evaluation of the nearest handler on the one-row dataset `df1`. -/
theorem nearest_ok_df1 :
    get_nearest_food_trucks (df_with_coordinates df1) 0 0 false = Except.ok [r0] := by
  unfold get_nearest_food_trucks
  rw [nearest_df1]
  simp

/-- C1: for every dataset and query point the nearest handler's record list
has at most 5 rows, drawn only from the coordinate-filtered view, sorted
ascending by haversine distance from the query point; when `all_statuses`
is false every returned row's lower-cased status is exactly "approved",
and in general the output is the 5-row prefix of a distance-sorted
permutation of the candidate set (the whole coordinate-filtered view when
`all_statuses` is true, its approved rows otherwise); the handler's 200
response body is exactly this record list. -/
theorem C1_nearest_top5 (df : List Row) (lat lon : ℝ) (all_statuses : Bool) :
    (nearestRecords (df_with_coordinates df) lat lon all_statuses).length ≤ 5 ∧
    (∀ r, r ∈ nearestRecords (df_with_coordinates df) lat lon all_statuses →
      r ∈ df_with_coordinates df) ∧
    (nearestRecords (df_with_coordinates df) lat lon all_statuses).Pairwise
      (fun a b => rowDist lat lon a ≤ rowDist lat lon b) ∧
    (all_statuses = false → ∀ r,
      r ∈ nearestRecords (df_with_coordinates df) lat lon all_statuses →
      strLower r.Status = "approved") ∧
    (∃ l : List Row, l.Perm (approvedFilter all_statuses (df_with_coordinates df)) ∧
      l.Pairwise (fun a b => rowDist lat lon a ≤ rowDist lat lon b) ∧
      nearestRecords (df_with_coordinates df) lat lon all_statuses = l.take 5) ∧
    (∀ out, get_nearest_food_trucks (df_with_coordinates df) lat lon all_statuses =
        Except.ok out →
      out = nearestRecords (df_with_coordinates df) lat lon all_statuses) := by
  have hpw : (nearestSorted (df_with_coordinates df) lat lon all_statuses).Pairwise
      (fun p q => rowDist lat lon p.1 ≤ rowDist lat lon q.1) := by
    refine List.Pairwise.imp_of_mem ?_
      (nearestSorted_pairwise (df_with_coordinates df) lat lon all_statuses)
    intro p q hp hq hle
    have h1 := nearestSorted_mem_snd (df_with_coordinates df) lat lon all_statuses p hp
    have h2 := nearestSorted_mem_snd (df_with_coordinates df) lat lon all_statuses q hq
    rw [← h1, ← h2]
    simpa [distLE] using hle
  have hmapfst : nearestRecords (df_with_coordinates df) lat lon all_statuses =
      ((nearestSorted (df_with_coordinates df) lat lon all_statuses).map Prod.fst).take 5 := by
    unfold nearestRecords
    rw [List.map_take]
  have hperm := nearestSorted_fst_perm (df_with_coordinates df) lat lon all_statuses
  have hmem : ∀ r, r ∈ nearestRecords (df_with_coordinates df) lat lon all_statuses →
      r ∈ approvedFilter all_statuses (df_with_coordinates df) :=
    fun r hr => nearest_mem _ lat lon all_statuses r hr
  refine ⟨?_, ?_, ?_, ?_, ?_, ?_⟩
  · rw [hmapfst, List.length_take]
    exact min_le_left _ _
  · intro r hr
    exact (approvedFilter_sublist _ _).subset (hmem r hr)
  · rw [hmapfst]
    exact List.Pairwise.sublist (List.take_sublist _ _) (List.pairwise_map.mpr hpw)
  · intro hall r hr
    have h2 := hmem r hr
    rw [hall] at h2
    rw [show approvedFilter false (df_with_coordinates df) =
      (df_with_coordinates df).filter (fun r => strLower r.Status == "approved")
      from rfl] at h2
    rw [List.mem_filter] at h2
    exact beq_iff_eq.mp h2.2
  · exact ⟨(nearestSorted (df_with_coordinates df) lat lon all_statuses).map Prod.fst,
      hperm, List.pairwise_map.mpr hpw, hmapfst⟩
  · intro out hout
    unfold get_nearest_food_trucks at hout
    split at hout
    · exact Except.noConfusion hout
    · injection hout with h
      exact h.symm

/-- C1 witness: on the one-row dataset `df1` with query point (0, 0) and
`all_statuses = false`, the single returned row is in the coordinate view
and has approved status. -/
theorem C1_nearest_top5_witness :
    r0 ∈ df_with_coordinates df1 ∧ strLower r0.Status = "approved" := by
  have hm : r0 ∈ nearestRecords (df_with_coordinates df1) 0 0 false := by
    rw [nearest_df1]
    exact List.mem_singleton.mpr rfl
  exact ⟨(C1_nearest_top5 df1 0 0 false).2.1 r0 hm,
    (C1_nearest_top5 df1 0 0 false).2.2.2.1 rfl r0 hm⟩

/-- C2 counterexample: with the one-row dataset `df2` (Applicant "ab") and
query ".", the row is returned although "." is not a substring of "ab" —
`str.contains` defaults to `regex=True`, so the query is a regular
expression, not a literal substring. -/
theorem C2_counterexample :
    ¬ (rowAB ∈ applicantRecords df2 "." none ↔
      rowAB ∈ df2 ∧
      specContainsSub (strLower rowAB.Applicant) (strLower ".") = true) := by
  decide

/-- C2 amended: for every query whose lower-cased form (the pattern actually
handed to the matcher) contains no regex metacharacter, membership in the
applicant result is exactly case-insensitive substring containment in
`Applicant`, membership in the street result is exactly case-insensitive
substring containment in `Address`, and both results preserve source
order. -/
theorem C2_substring_literal (df : List Row) (q : String)
    (h : literalPattern (strLower q) = true) :
    applicantRecords df q none = applicantMatches df q ∧
    (applicantMatches df q).Sublist df ∧
    (∀ r, r ∈ applicantMatches df q ↔
      r ∈ df ∧ specContainsSub (strLower r.Applicant) (strLower q) = true) ∧
    (streetMatches df q).Sublist df ∧
    (∀ r, r ∈ streetMatches df q ↔
      r ∈ df ∧ specContainsSub (strLower r.Address) (strLower q) = true) := by
  refine ⟨rfl, List.filter_sublist _, ?_, List.filter_sublist _, ?_⟩
  · intro r
    unfold applicantMatches
    rw [List.mem_filter, pyContains_eq_specContainsSub (strLower r.Applicant) (strLower q) h]
  · intro r
    unfold streetMatches
    rw [List.mem_filter, pyContains_eq_specContainsSub (strLower r.Address) (strLower q) h]

/-- C2 witness: the query "TACO" (no metacharacters) matches the row whose
applicant is "Taco Cart". -/
theorem C2_substring_literal_witness :
    rowCE ∈ applicantMatches [rowCE] "TACO" :=
  ((C2_substring_literal [rowCE] "TACO" (by decide)).2.2.1 rowCE).mpr (by decide)

/-- C3: each handler returns its endpoint-specific 404 message exactly when
its record list is empty, and returns the whole record list as the 200 body
otherwise. -/
theorem C3_not_found (df : List Row) (name street : String)
    (status : Option String) (lat lon : ℝ) (all_statuses : Bool) :
    (search_by_applicant df name status =
        Except.error "No matching applicant(s) found" ↔
      applicantRecords df name status = []) ∧
    (applicantRecords df name status ≠ [] →
      search_by_applicant df name status =
        Except.ok (applicantRecords df name status)) ∧
    (search_by_street df street = Except.error "No matching addresses found" ↔
      streetMatches df street = []) ∧
    (streetMatches df street ≠ [] →
      search_by_street df street = Except.ok (streetMatches df street)) ∧
    (get_nearest_food_trucks (df_with_coordinates df) lat lon all_statuses =
        Except.error "No food trucks found with valid coordinates" ↔
      nearestRecords (df_with_coordinates df) lat lon all_statuses = []) ∧
    (nearestRecords (df_with_coordinates df) lat lon all_statuses ≠ [] →
      get_nearest_food_trucks (df_with_coordinates df) lat lon all_statuses =
        Except.ok (nearestRecords (df_with_coordinates df) lat lon all_statuses)) :=
  ⟨(if404 _ _).1, (if404 _ _).2, (if404 _ _).1, (if404 _ _).2,
    (if404 _ _).1, (if404 _ _).2⟩

/-- C3 witness: the applicant endpoint yields the 404 message on an empty
dataset and the 200 body on a matching one-row dataset. -/
theorem C3_not_found_witness :
    search_by_applicant [] "x" none =
      Except.error "No matching applicant(s) found" ∧
    search_by_applicant [rowCE] "taco" none =
      Except.ok (applicantRecords [rowCE] "taco" none) :=
  ⟨(C3_not_found [] "x" "" none 0 0 false).1.mpr (by decide),
    (C3_not_found [rowCE] "taco" "" none 0 0 false).2.1 (by decide)⟩

/-- C4: the coordinate-filtered view is an order-preserving sub-sequence of
the loaded rows containing exactly the rows with both coordinates present
and both different from 0; consequently no nearest-handler output row has a
missing or zero coordinate. -/
theorem C4_coord_rows (df : List Row) :
    (df_with_coordinates df).Sublist df ∧
    (∀ r, r ∈ df_with_coordinates df ↔
      r ∈ df ∧ r.Latitude ≠ none ∧ r.Longitude ≠ none ∧
      r.Latitude ≠ some 0 ∧ r.Longitude ≠ some 0) ∧
    (∀ (lat lon : ℝ) (all_statuses : Bool) (r : Row),
      r ∈ nearestRecords (df_with_coordinates df) lat lon all_statuses →
      r.Latitude ≠ none ∧ r.Longitude ≠ none ∧
      r.Latitude ≠ some 0 ∧ r.Longitude ≠ some 0) := by
  have hiff : ∀ r, r ∈ df_with_coordinates df ↔
      r ∈ df ∧ r.Latitude ≠ none ∧ r.Longitude ≠ none ∧
      r.Latitude ≠ some 0 ∧ r.Longitude ≠ some 0 := by
    intro r
    unfold df_with_coordinates
    simp only [List.mem_filter, Bool.and_eq_true, decide_eq_true_eq,
      Option.isSome_iff_ne_none]
    tauto
  refine ⟨(List.filter_sublist _).trans (List.filter_sublist _), hiff, ?_⟩
  intro lat lon all_statuses r hr
  have h2 := (approvedFilter_sublist _ _).subset
    (nearest_mem _ lat lon all_statuses r hr)
  exact ((hiff r).mp h2).2

/-- C4 witness: the valid row `r0` is in the coordinate view of `df1`, and
the row returned by the nearest handler there has a non-zero latitude. -/
theorem C4_coord_rows_witness :
    r0 ∈ df_with_coordinates df1 ∧ r0.Latitude ≠ some 0 := by
  have hm : r0 ∈ nearestRecords (df_with_coordinates df1) 0 0 false := by
    rw [nearest_df1]
    exact List.mem_singleton.mpr rfl
  exact ⟨((C4_coord_rows df1).2.1 r0).mpr (by decide),
    ((C4_coord_rows df1).2.2 0 0 false r0 hm).2.2.1⟩

/-- C5 failing-input evidence: `dfTie` (21 approved rows at identical valid
coordinates) reaches the sort with 21 candidates whose distances from the
query point (0, 0) are pairwise equal, so the relative output order of
these rows is decided entirely by the tie-breaking of the sort algorithm.
The source calls `sort_values(by="distance")` with pandas' default
`kind='quicksort'`, which pandas documents as not stable, so source order
on ties is not guaranteed. -/
theorem C5_tie_heavy_input :
    (approvedFilter false (df_with_coordinates dfTie)).length = 21 ∧
    mkTieRow 0 ∈ approvedFilter false (df_with_coordinates dfTie) ∧
    mkTieRow 20 ∈ approvedFilter false (df_with_coordinates dfTie) ∧
    mkTieRow 0 ≠ mkTieRow 20 ∧
    rowDist 0 0 (mkTieRow 0) = rowDist 0 0 (mkTieRow 20) :=
  ⟨by decide, by decide, by decide, by decide, rfl⟩

/-- C6: when a non-empty status is supplied to the applicant endpoint, a
name-matching row is kept exactly when its lower-cased status equals the
lower-cased query status; equality, not substring: the row with status
"APPROVED" is returned for status "approved" and not for status
"approv". -/
theorem C6_status_exact (df : List Row) (name status : String)
    (h : status ≠ "") :
    (∀ r, r ∈ applicantRecords df name (some status) ↔
      r ∈ applicantMatches df name ∧ strLower r.Status = strLower status) ∧
    rowCE ∈ applicantRecords [rowCE] "taco" (some "approved") ∧
    rowCE ∉ applicantRecords [rowCE] "taco" (some "approv") := by
  refine ⟨?_, by decide, by decide⟩
  intro r
  simp only [applicantRecords, statusFilter]
  rw [if_neg h, List.mem_filter]
  constructor
  · intro hx
    exact ⟨hx.1, beq_iff_eq.mp hx.2⟩
  · intro hx
    exact ⟨hx.1, beq_iff_eq.mpr hx.2⟩

/-- C6 witness: instantiation at the non-empty status "approved". -/
theorem C6_status_exact_witness :
    rowCE ∈ applicantRecords [rowCE] "taco" (some "approved") :=
  (C6_status_exact [rowCE] "taco" "approved" (by decide)).2.1

/-- C7: the distance function vanishes on identical points, is symmetric in
its two coordinate pairs, and is literally the specified spherical formula
with Earth radius 3956 miles. -/
theorem C7_haversine_props :
    (∀ lat lon : ℝ, haversine lat lon lat lon = 0) ∧
    (∀ lat1 lon1 lat2 lon2 : ℝ,
      haversine lat1 lon1 lat2 lon2 = haversine lat2 lon2 lat1 lon1) ∧
    (∀ lat1 lon1 lat2 lon2 : ℝ,
      haversine lat1 lon1 lat2 lon2 =
        2 * Real.arcsin (Real.sqrt
          (Real.sin ((radians lat2 - radians lat1) / 2) ^ 2 +
            Real.cos (radians lat1) * Real.cos (radians lat2) *
              Real.sin ((radians lon2 - radians lon1) / 2) ^ 2)) * 3956) := by
  refine ⟨?_, ?_, fun lat1 lon1 lat2 lon2 => rfl⟩
  · intro lat lon
    simp [haversine]
  · intro lat1 lon1 lat2 lon2
    have key : ∀ u v : ℝ,
        Real.sin ((u - v) / 2) ^ 2 = Real.sin ((v - u) / 2) ^ 2 := by
      intro u v
      rw [show (u - v) / 2 = -((v - u) / 2) by ring, Real.sin_neg, neg_sq]
    simp only [haversine]
    rw [key (radians lat2) (radians lat1), key (radians lon2) (radians lon1),
      mul_comm (Real.cos (radians lat1)) (Real.cos (radians lat2))]

/-- C8: the loader's per-cell normalization: null text cells become the
empty string and string cells pass through unchanged (case preserved);
numeric coordinate cells are stored exactly, null cells and strings the
numeric parser rejects become "no value", and strings it accepts are stored
exactly as parsed; a loaded row is these normalizations applied
field-wise. -/
theorem C8_loader_normalization :
    normText RawCell.null = "" ∧
    (∀ s, normText (RawCell.str s) = s) ∧
    (∀ q, to_numeric (RawCell.num q) = some q) ∧
    to_numeric RawCell.null = none ∧
    (∀ s, parseDecimal? s = none → to_numeric (RawCell.str s) = none) ∧
    (∀ s q, parseDecimal? s = some q → to_numeric (RawCell.str s) = some q) ∧
    (∀ raw : RawRow, loadRow raw =
      ⟨normText raw.Applicant, normText raw.Status, normText raw.Address,
        to_numeric raw.Latitude, to_numeric raw.Longitude⟩) :=
  ⟨rfl, fun _ => rfl, fun _ => rfl, rfl, fun _ hs => hs, fun _ _ hs => hs,
    fun _ => rfl⟩

/-- C8 witness: the unparseable string "abc" is coerced to "no value" and
the numeral "7" is stored exactly. -/
theorem C8_loader_normalization_witness :
    to_numeric (RawCell.str "abc") = none ∧
    to_numeric (RawCell.str "7") = some 7 :=
  ⟨C8_loader_normalization.2.2.2.2.1 "abc" (by decide),
    C8_loader_normalization.2.2.2.2.2.1 "7" 7 (by decide)⟩

/-- C9: every handler returns the server state unchanged, and every row in a
nearest 200 body is verbatim an element of the coordinate view, hence
carries no transient distance value. -/
theorem C9_handlers_pure (st : ServerState) (name street : String)
    (status : Option String) (lat lon : ℝ) (all_statuses : Bool) :
    (applicantHandler st name status).2 = st ∧
    (streetHandler st street).2 = st ∧
    (nearestHandler st lat lon all_statuses).2 = st ∧
    (∀ out, (nearestHandler st lat lon all_statuses).1 = Except.ok out →
      ∀ r, r ∈ out → r ∈ st.coordRows) := by
  refine ⟨rfl, rfl, rfl, ?_⟩
  intro out hout r hr
  have hrec : out = nearestRecords st.coordRows lat lon all_statuses := by
    unfold nearestHandler get_nearest_food_trucks at hout
    split at hout
    · exact Except.noConfusion hout
    · injection hout with h
      exact h.symm
  rw [hrec] at hr
  exact (approvedFilter_sublist _ _).subset
    (nearest_mem _ lat lon all_statuses r hr)

/-- C9 witness: on the startup state over `df1`, the nearest handler's body
row is an element of the coordinate view. -/
theorem C9_handlers_pure_witness : r0 ∈ (initState df1).coordRows := by
  refine (C9_handlers_pure (initState df1) "x" "y" none 0 0 false).2.2.2
    [r0] ?_ r0 (List.mem_singleton.mpr rfl)
  exact nearest_ok_df1

/-- C10: supplying the empty string as status to the applicant endpoint is
identical to omitting the status parameter (Python's `if status:` treats
the empty string as absent): same records, same response. -/
theorem C10_empty_status (df : List Row) (name : String) :
    applicantRecords df name (some "") = applicantRecords df name none ∧
    search_by_applicant df name (some "") = search_by_applicant df name none := by
  have h : applicantRecords df name (some "") = applicantRecords df name none := by
    simp [applicantRecords, statusFilter]
  refine ⟨h, ?_⟩
  unfold search_by_applicant
  rw [h]
